import Mathlib

/-
Formal model of the HydroVacFinder location-search core.

The definitions below are a shallow embedding of:
  * the radius matchers and store read operations of `src/server/storage.ts`
    (`getCompaniesByRadius`, `getDisposalSitesByRadius`, `getCompany`,
    `getDisposalSite`, `getStateLandingPageByStateCode`,
    `getDisposalSiteLandingPageByStateCode`), and
  * the `POST /api/search` handler of `src/server/routes.ts`
    (state extraction, premium landing-page resolution, premium separation,
    tier sorting, `hasRadiusResults`, response assembly).

Modelling conventions:
  * Database rows become Lean structures.  Coordinate columns are stored as
    text in the database and parsed with `parseFloat`; a coordinate is
    modelled as `Option Rat`, where `none` stands for a NULL / empty-string
    (JS-falsy) column, and `some q` for a column that parses to the number
    `q`.  A column that is truthy but unparseable yields `NaN` in JS, and a
    `NaN` distance compares `false` against every radius, which coincides
    with the `none` behaviour for matching purposes.
  * `calculateDistance` in the source is the haversine great-circle formula
    over IEEE doubles (Earth radius 3959 miles).  Its transcendental
    functions are not exactly representable, so every definition and theorem
    is parameterised over an arbitrary distance function
    `dist : Rat → Rat → Rat → Rat → Rat` (arguments: lat1 lng1 lat2 lng2);
    every theorem therefore holds for the haversine function in particular.
  * JS truthiness tests on optional strings, numbers and ids are modelled by
    the `truthyStr` / `truthyNum` / `truthyId` functions (`none`, the empty
    string, and the number `0` are falsy).
  * `Array.prototype.sort` with a comparator `cmp` is a stable sort placing
    `a` before `b` whenever `cmp a b ≤ 0`; it is modelled by the structurally
    recursive stable insertion sort `stableSort` with `le a b = (cmp a b ≤ 0)`.
  * The one external effect, the Google geocode call, is modelled by passing
    its outcome (`GeocodeOutcome`) to the handler as an input.
-/

namespace HydroVac

/-- JS truthiness of an optional string (`undefined` / `null` / `""` are falsy). -/
def truthyStr : Option String → Bool
  | none => false
  | some s => !(s == "")

/-- JS truthiness of an optional number (`undefined` / `null` / `0` are falsy). -/
def truthyNum : Option Rat → Bool
  | none => false
  | some q => !(q == 0)

/-- JS truthiness of an optional integer id (`undefined` / `null` / `0` are falsy). -/
def truthyId : Option Nat → Bool
  | none => false
  | some n => !(n == 0)

/-- Model of `String.prototype.toLowerCase` (character-wise lowering). -/
def jsToLower (s : String) : String := String.mk (s.data.map Char.toLower)

/-- Model of `String.prototype.toUpperCase` (character-wise raising). -/
def jsToUpper (s : String) : String := String.mk (s.data.map Char.toUpper)

/-- Model of `String.prototype.includes`: `needle` occurs contiguously in `hay`. -/
def jsIncludes (hay needle : String) : Bool := decide (needle.data <:+: hay.data)

/-- Stable insertion used by `stableSort`. -/
def stableInsert {α : Type} (le : α → α → Bool) (a : α) : List α → List α
  | [] => [a]
  | b :: l => if le a b then a :: b :: l else b :: stableInsert le a l

/-- Stable sort modelling `Array.prototype.sort` (stable per ECMAScript);
an element `a` is placed before `b` whenever `le a b` holds. -/
def stableSort {α : Type} (le : α → α → Bool) : List α → List α
  | [] => []
  | a :: l => stableInsert le a (stableSort le l)

/-- One entry of a provider's `additionalLocations` JSON array
(`{city, address?, lat?, lng?}` in the seed data and admin forms). -/
structure AdditionalLocation where
  city : Option String
  address : Option String
  lat : Option Rat
  lng : Option Rat
deriving DecidableEq

/-- The `additionalLocations` column as read back from the store:
`absent` models a NULL / falsy column, `unparseable` models a string the
`JSON.parse` call throws on (caught and skipped) or a parse that is not an
array (the `Array.isArray` guard fails), `parsed` a decoded array. -/
inductive AdditionalLocationsField
  | absent
  | unparseable
  | parsed (locs : List AdditionalLocation)
deriving DecidableEq

/-- A row of the `companies` table, restricted to the fields the search
core reads (`id`, `name`, `tier`, `lat`, `lng`, `additionalLocations`). -/
structure Company where
  id : Nat
  name : String
  tier : Option String
  lat : Option Rat
  lng : Option Rat
  additionalLocations : AdditionalLocationsField
deriving DecidableEq

/-- A row of the `disposal_sites` table, restricted to the fields the
search core reads. -/
structure DisposalSite where
  id : Nat
  name : String
  lat : Option Rat
  lng : Option Rat
  additionalLocations : AdditionalLocationsField
deriving DecidableEq

/-- A row of the `state_landing_pages` table (company category), restricted
to the fields the search core reads; `active` is a text column compared
against the literal `"yes"`. -/
structure StateLandingPage where
  id : Nat
  stateCode : String
  companyId : Option Nat
  active : String
deriving DecidableEq

/-- A row of the `disposal_site_landing_pages` table, restricted to the
fields the search core reads. -/
structure DisposalSiteLandingPage where
  id : Nat
  stateCode : String
  disposalSiteId : Option Nat
  active : String
deriving DecidableEq

/-- Read-only snapshot of the backing store for one request. -/
structure Storage where
  companies : List Company
  disposalSites : List DisposalSite
  stateLandingPages : List StateLandingPage
  disposalSiteLandingPages : List DisposalSiteLandingPage
deriving DecidableEq

/-- `DatabaseStorage.getCompany`: first row with the given id. -/
def getCompany (store : Storage) (id : Nat) : Option Company :=
  store.companies.find? (fun c => c.id == id)

/-- `DatabaseStorage.getDisposalSite`: first row with the given id. -/
def getDisposalSite (store : Storage) (id : Nat) : Option DisposalSite :=
  store.disposalSites.find? (fun s => s.id == id)

/-- `DatabaseStorage.getStateLandingPageByStateCode`: first row whose
`stateCode` equals the upper-cased argument. -/
def getStateLandingPageByStateCode (store : Storage) (stateCode : String) :
    Option StateLandingPage :=
  store.stateLandingPages.find? (fun p => p.stateCode == jsToUpper stateCode)

/-- `DatabaseStorage.getDisposalSiteLandingPageByStateCode`. -/
def getDisposalSiteLandingPageByStateCode (store : Storage) (stateCode : String) :
    Option DisposalSiteLandingPage :=
  store.disposalSiteLandingPages.find? (fun p => p.stateCode == jsToUpper stateCode)

/-- Guard `if (company.lat && company.lng)` followed by
`calculateDistance(lat, lng, companyLat, companyLng) <= radiusMiles` on the
primary coordinates of a company. -/
def companyPrimaryWithin (dist : Rat → Rat → Rat → Rat → Rat)
    (lat lng radiusMiles : Rat) (c : Company) : Bool :=
  match c.lat, c.lng with
  | some cla, some clo => decide (dist lat lng cla clo ≤ radiusMiles)
  | _, _ => false

/-- Guard `if (loc.lat && loc.lng)` (JS number truthiness: a missing or zero
coordinate is falsy) followed by the distance test, for one entry of a
company's `additionalLocations` array. -/
def additionalLocationWithin (dist : Rat → Rat → Rat → Rat → Rat)
    (lat lng radiusMiles : Rat) (loc : AdditionalLocation) : Bool :=
  if truthyNum loc.lat && truthyNum loc.lng then
    decide (dist lat lng (loc.lat.getD 0) (loc.lng.getD 0) ≤ radiusMiles)
  else false

/-- The filter predicate of `getCompaniesByRadius`: the primary location is
within the radius, or the parsed `additionalLocations` array is non-empty and
some entry with truthy coordinates is within the radius. -/
def companyMatchesRadius (dist : Rat → Rat → Rat → Rat → Rat)
    (lat lng radiusMiles : Rat) (c : Company) : Bool :=
  companyPrimaryWithin dist lat lng radiusMiles c ||
    (match c.additionalLocations with
     | AdditionalLocationsField.parsed locs =>
         decide (locs.length > 0) &&
           locs.any (additionalLocationWithin dist lat lng radiusMiles)
     | _ => false)

/-- `DatabaseStorage.getCompaniesByRadius` (the `searchAddress` argument is
accepted but unused by the company matcher, exactly as in the source). -/
def getCompaniesByRadius (dist : Rat → Rat → Rat → Rat → Rat)
    (lat lng radiusMiles : Rat) (searchAddress : Option String)
    (allCompanies : List Company) : List Company :=
  allCompanies.filter (companyMatchesRadius dist lat lng radiusMiles)

/-- Primary-coordinate radius test of `getDisposalSitesByRadius`. -/
def sitePrimaryWithin (dist : Rat → Rat → Rat → Rat → Rat)
    (lat lng radiusMiles : Rat) (s : DisposalSite) : Bool :=
  match s.lat, s.lng with
  | some sla, some slo => decide (dist lat lng sla slo ≤ radiusMiles)
  | _, _ => false

/-- Text comparison of one disposal-site additional location against the
lower-cased search address: `loc.city && searchLower.includes(loc.city
.toLowerCase())`, likewise for `loc.address`. -/
def additionalLocationTextMatch (searchLower : String)
    (loc : AdditionalLocation) : Bool :=
  (truthyStr loc.city && jsIncludes searchLower (jsToLower (loc.city.getD ""))) ||
    (truthyStr loc.address && jsIncludes searchLower (jsToLower (loc.address.getD "")))

/-- The filter predicate of `getDisposalSitesByRadius`: primary location
within the radius, or (`searchAddress` truthy and) some parsed additional
location whose city or address occurs in the lower-cased search text. -/
def siteMatchesRadius (dist : Rat → Rat → Rat → Rat → Rat)
    (lat lng radiusMiles : Rat) (searchAddress : Option String)
    (s : DisposalSite) : Bool :=
  sitePrimaryWithin dist lat lng radiusMiles s ||
    (truthyStr searchAddress &&
      match s.additionalLocations with
      | AdditionalLocationsField.parsed locs =>
          locs.any (additionalLocationTextMatch (jsToLower (searchAddress.getD "")))
      | _ => false)

/-- `DatabaseStorage.getDisposalSitesByRadius`. -/
def getDisposalSitesByRadius (dist : Rat → Rat → Rat → Rat → Rat)
    (lat lng radiusMiles : Rat) (searchAddress : Option String)
    (allSites : List DisposalSite) : List DisposalSite :=
  allSites.filter (siteMatchesRadius dist lat lng radiusMiles searchAddress)

/-- One entry of the geocoder's `address_components` array. -/
structure AddressComponent where
  long_name : String
  short_name : String
  types : List String
deriving DecidableEq

/-- The first geocoder candidate, restricted to the fields the handler
reads (`geometry.location`, `formatted_address`, `types`,
`address_components`). -/
structure GeoResult where
  lat : Rat
  lng : Rat
  formatted_address : String
  types : List String
  address_components : List AddressComponent
deriving DecidableEq

/-- The `state` object of the response (`{code, name}`). -/
structure StateInfo where
  code : String
  name : String
deriving DecidableEq

/-- Step 2 of the handler: the first address component typed
`administrative_area_level_1` yields `stateCode` (short name) and
`stateName` (long name); absent such a component both stay null. -/
def extractStateInfo (g : GeoResult) : Option StateInfo :=
  (g.address_components.find?
      (fun comp => comp.types.contains "administrative_area_level_1")).map
    (fun comp => { code := comp.short_name, name := comp.long_name })

/-- Step 2 of the handler: `searchType` is `"state"` when the result itself
is typed `administrative_area_level_1`, else `"local"`. -/
def extractSearchType (g : GeoResult) : String :=
  if g.types.contains "administrative_area_level_1" then "state" else "local"

/-- Step 3 of the handler for the company category: with a null state code
nothing is looked up; otherwise the landing page for the state is fetched,
and the bound company only when the page is active (`active === "yes"`) and
carries a truthy `companyId`.  Returns (landing page, premium company). -/
def resolvePremiumCompany (store : Storage) (stateCode : Option String) :
    Option StateLandingPage × Option Company :=
  match stateCode with
  | none => (none, none)
  | some sc =>
    match getStateLandingPageByStateCode store sc with
    | none => (none, none)
    | some page =>
      (some page,
        if page.active == "yes" && truthyId page.companyId then
          getCompany store (page.companyId.getD 0)
        else none)

/-- Step 3 of the handler for the disposal-site category. -/
def resolvePremiumDisposalSite (store : Storage) (stateCode : Option String) :
    Option DisposalSiteLandingPage × Option DisposalSite :=
  match stateCode with
  | none => (none, none)
  | some sc =>
    match getDisposalSiteLandingPageByStateCode store sc with
    | none => (none, none)
    | some page =>
      (some page,
        if page.active == "yes" && truthyId page.disposalSiteId then
          getDisposalSite store (page.disposalSiteId.getD 0)
        else none)

/-- The `stateCode` variable of the handler. -/
def stateCodeOf (g : GeoResult) : Option String :=
  (extractStateInfo g).map (fun si => si.code)

/-- The `premiumLandingPage` / `premiumCompany` pair of the handler. -/
def premiumCompanyPair (store : Storage) (g : GeoResult) :
    Option StateLandingPage × Option Company :=
  resolvePremiumCompany store (stateCodeOf g)

/-- The `disposalSiteLandingPage` / `premiumDisposalSite` pair of the handler. -/
def premiumDisposalPair (store : Storage) (g : GeoResult) :
    Option DisposalSiteLandingPage × Option DisposalSite :=
  resolvePremiumDisposalSite store (stateCodeOf g)

/-- Step 4 of the handler: `companiesInRadius` (the raw search address is
passed through to the matcher, which ignores it). -/
def companiesInRadiusOf (dist : Rat → Rat → Rat → Rat → Rat) (store : Storage)
    (address : String) (radiusMiles : Rat) (g : GeoResult) : List Company :=
  getCompaniesByRadius dist g.lat g.lng radiusMiles (some address) store.companies

/-- Step 5 of the handler: `disposalSitesInRadius`. -/
def disposalSitesInRadiusOf (dist : Rat → Rat → Rat → Rat → Rat) (store : Storage)
    (address : String) (radiusMiles : Rat) (g : GeoResult) : List DisposalSite :=
  getDisposalSitesByRadius dist g.lat g.lng radiusMiles (some address) store.disposalSites

/-- Step 6 of the handler: when a premium company resolved, it is filtered
out of `companiesInRadius`; it is never re-inserted. -/
def otherCompaniesOf (dist : Rat → Rat → Rat → Rat → Rat) (store : Storage)
    (address : String) (radiusMiles : Rat) (g : GeoResult) : List Company :=
  match (premiumCompanyPair store g).2 with
  | some pc =>
      (companiesInRadiusOf dist store address radiusMiles g).filter
        (fun c => !(c.id == pc.id))
  | none => companiesInRadiusOf dist store address radiusMiles g

/-- The comparator of step 6a as an integer: the landing-page company sorts
first, then tier rank descending (`premium=3, featured=2, verified=1`, every
other tier `0`). -/
def tierRank : Option String → Int
  | some "premium" => 3
  | some "featured" => 2
  | some "verified" => 1
  | _ => 0

/-- `(a, b) => ...` comparator of step 6a. -/
def companyCompare (landingCompanyId : Nat) (a b : Company) : Int :=
  if a.id == landingCompanyId then -1
  else if b.id == landingCompanyId then 1
  else tierRank b.tier - tierRank a.tier

/-- Stable-sort order induced by `companyCompare`. -/
def companyLe (landingCompanyId : Nat) (a b : Company) : Bool :=
  decide (companyCompare landingCompanyId a b ≤ 0)

/-- Step 6a of the handler: the sort runs only when a landing page with a
truthy `companyId` was found (whether or not it is active). -/
def sortedCompaniesOf (dist : Rat → Rat → Rat → Rat → Rat) (store : Storage)
    (address : String) (radiusMiles : Rat) (g : GeoResult) : List Company :=
  match (premiumCompanyPair store g).1 with
  | some page =>
      if truthyId page.companyId then
        stableSort (companyLe (page.companyId.getD 0))
          (otherCompaniesOf dist store address radiusMiles g)
      else otherCompaniesOf dist store address radiusMiles g
  | none => otherCompaniesOf dist store address radiusMiles g

/-- The `location` object of the response. -/
structure ResponseLocation where
  lat : Rat
  lng : Rat
  formattedAddress : String
deriving DecidableEq

/-- The JSON body assembled by the handler on success.  The
`premiumLandingPage` and `disposalSiteLandingPage` fields carry the landing
page spread together with its nested `company` / `disposalSite`. -/
structure SearchResponse where
  location : ResponseLocation
  state : Option StateInfo
  searchType : String
  hasRadiusResults : Bool
  premiumLandingPage : Option (StateLandingPage × Option Company)
  disposalSiteLandingPage : Option (DisposalSiteLandingPage × Option DisposalSite)
  companies : List Company
  disposalSites : List DisposalSite
  radius : Rat
deriving DecidableEq

/-- Steps 2-6a and response assembly of the `/api/search` handler: the pure
computation performed once geocoding has produced the first candidate `g`. -/
def searchCore (dist : Rat → Rat → Rat → Rat → Rat) (store : Storage)
    (address : String) (radiusMiles : Rat) (g : GeoResult) : SearchResponse :=
  { location := { lat := g.lat, lng := g.lng, formattedAddress := g.formatted_address }
    state := extractStateInfo g
    searchType := extractSearchType g
    hasRadiusResults :=
      decide (0 < (sortedCompaniesOf dist store address radiusMiles g).length) ||
        decide (0 < (disposalSitesInRadiusOf dist store address radiusMiles g).length)
    premiumLandingPage :=
      (premiumCompanyPair store g).1.map (fun p => (p, (premiumCompanyPair store g).2))
    disposalSiteLandingPage :=
      (premiumDisposalPair store g).1.map (fun p => (p, (premiumDisposalPair store g).2))
    companies := sortedCompaniesOf dist store address radiusMiles g
    disposalSites := disposalSitesInRadiusOf dist store address radiusMiles g
    radius := radiusMiles }

/-- The JSON request body of `POST /api/search`; `radiusMiles := none`
models an omitted field (destructuring default 50). -/
structure RequestBody where
  address : Option String
  radiusMiles : Option Rat
deriving DecidableEq

/-- Outcome of the external geocode call: transport failure (the `catch`
branch) or an HTTP body with a `status` string and candidate list. -/
inductive GeocodeOutcome
  | fetchFailed
  | response (status : String) (results : List GeoResult)
deriving DecidableEq

/-- The error responses of the handler: 400 "Address is required",
503 "Google API key not configured", 400 "Unable to geocode address",
500 "Failed to perform search". -/
inductive ApiError
  | addressRequired
  | apiKeyNotConfigured
  | unableToGeocode
  | searchFailed
deriving DecidableEq

/-- The `POST /api/search` handler: input validation, API-key guard,
geocode outcome inspection, then the pure `searchCore`. -/
def apiSearch (dist : Rat → Rat → Rat → Rat → Rat) (store : Storage)
    (apiKeyConfigured : Bool) (body : RequestBody) (geo : GeocodeOutcome) :
    Except ApiError SearchResponse :=
  if !truthyStr body.address then Except.error ApiError.addressRequired
  else if !apiKeyConfigured then Except.error ApiError.apiKeyNotConfigured
  else
    match geo with
    | GeocodeOutcome.fetchFailed => Except.error ApiError.searchFailed
    | GeocodeOutcome.response status results =>
      match results with
      | [] => Except.error ApiError.unableToGeocode
      | g :: _ =>
        if status != "OK" then Except.error ApiError.unableToGeocode
        else
          Except.ok (searchCore dist store (body.address.getD "")
            (body.radiusMiles.getD 50) g)

/-! ### Concrete fixtures used by counterexamples and witnesses -/

/-- A distance function that makes every pair of points 0 miles apart;
used to place fixtures inside any positive radius. -/
def distZero : Rat → Rat → Rat → Rat → Rat := fun _ _ _ _ => 0

/-- A distance function that is 0 on coincident points and 1000 miles
otherwise; a stand-in for the haversine values of the satellite-office
scenario (primary location far away, additional location at the center). -/
def distApart : Rat → Rat → Rat → Rat → Rat :=
  fun la ln lb lnb => if la = lb then (if ln = lnb then 0 else 1000) else 1000

/-- Geocoder candidate for "Indianapolis, IN": a locality whose
administrative-area component is Indiana. -/
def geoResIN : GeoResult :=
  { lat := 39, lng := -86, formatted_address := "Indianapolis, IN, USA"
    types := ["locality", "political"]
    address_components :=
      [{ long_name := "Indiana", short_name := "IN"
         types := ["administrative_area_level_1", "political"] }] }

/-- Geocode outcome wrapping `geoResIN`. -/
def geoOutIN : GeocodeOutcome := GeocodeOutcome.response "OK" [geoResIN]

/-- Premium-bound company (the landing-page partner). -/
def compInserv : Company :=
  { id := 1, name := "INSERV", tier := some "premium"
    lat := some 39, lng := some (-86)
    additionalLocations := AdditionalLocationsField.absent }

/-- An ordinary basic-tier company near the same center. -/
def compLocal : Company :=
  { id := 2, name := "Local Vac", tier := some "basic"
    lat := some 39, lng := some (-86)
    additionalLocations := AdditionalLocationsField.absent }

/-- Store with an active Indiana landing page bound to `compInserv`. -/
def storePinned : Storage :=
  { companies := [compInserv, compLocal]
    disposalSites := []
    stateLandingPages :=
      [{ id := 1, stateCode := "IN", companyId := some 1, active := "yes" }]
    disposalSiteLandingPages := [] }

/-- Request body for the Indianapolis search with the default-size radius. -/
def bodyIndy : RequestBody := { address := some "Indianapolis, IN", radiusMiles := some 50 }

/-- Three companies with tiers basic, premium, verified in input order. -/
def compA : Company :=
  { id := 1, name := "A", tier := some "basic"
    lat := some 39, lng := some (-86)
    additionalLocations := AdditionalLocationsField.absent }

def compB : Company :=
  { id := 2, name := "B", tier := some "premium"
    lat := some 39, lng := some (-86)
    additionalLocations := AdditionalLocationsField.absent }

def compC : Company :=
  { id := 3, name := "C", tier := some "verified"
    lat := some 39, lng := some (-86)
    additionalLocations := AdditionalLocationsField.absent }

/-- Store with the three tiered companies and no landing pages at all. -/
def storeTiers : Storage :=
  { companies := [compA, compB, compC]
    disposalSites := []
    stateLandingPages := []
    disposalSiteLandingPages := [] }

/-- The response computed for the pinned-premium fixture. -/
def respPinned : SearchResponse :=
  searchCore distZero storePinned "Indianapolis, IN" 50 geoResIN

/-- The Indiana landing page of `storePinned`. -/
def pageIN : StateLandingPage :=
  { id := 1, stateCode := "IN", companyId := some 1, active := "yes" }


/-- A satellite additional location carrying coordinates: sits exactly at
the search center `(25, -71)` of the satellite-office scenario, with a city
name that does not occur in the search text. -/
def satLoc : AdditionalLocation :=
  { city := some "Springfield", address := none, lat := some 25, lng := some (-71) }

/-- Company whose primary location is far away but whose additional
location sits at the search center. -/
def compSat : Company :=
  { id := 3, name := "Satellite Vac", tier := some "basic"
    lat := some 40, lng := some (-80)
    additionalLocations := AdditionalLocationsField.parsed [satLoc] }

/-- Disposal site of the same shape as `compSat`. -/
def siteSat : DisposalSite :=
  { id := 4, name := "Satellite Disposal"
    lat := some 40, lng := some (-80)
    additionalLocations := AdditionalLocationsField.parsed [satLoc] }

/-- Disposal site within the radius by its primary location. -/
def siteNear : DisposalSite :=
  { id := 5, name := "Near Disposal"
    lat := some 39, lng := some (-86)
    additionalLocations := AdditionalLocationsField.absent }

/-- Additional location with a city but no coordinates at all. -/
def locDenverText : AdditionalLocation :=
  { city := some "Denver", address := none, lat := none, lng := none }

/-- Disposal site with no resolvable coordinates anywhere, only the city
text "Denver" on an additional location. -/
def siteTextOnly : DisposalSite :=
  { id := 6, name := "Metro Disposal", lat := none, lng := none
    additionalLocations := AdditionalLocationsField.parsed [locDenverText] }

/-- Company with no resolvable coordinates anywhere (primary NULL, the one
additional location without coordinates). -/
def compNoCoords : Company :=
  { id := 7, name := "Ghost Vac", tier := some "basic", lat := none, lng := none
    additionalLocations := AdditionalLocationsField.parsed [locDenverText] }

/-- Disposal site with no coordinates and an additional-location city that
does not occur in the Indianapolis search text. -/
def siteNoText : DisposalSite :=
  { id := 8, name := "Phoenix Disposal", lat := none, lng := none
    additionalLocations := AdditionalLocationsField.parsed
      [{ city := some "Phoenix", address := none, lat := none, lng := none }] }

/-- Disposal site whose primary location is 1000 miles from the center
(under `distApart`) and whose additional location text-matches "Denver". -/
def siteFarText : DisposalSite :=
  { id := 9, name := "Far Disposal", lat := some 40, lng := some (-80)
    additionalLocations := AdditionalLocationsField.parsed [locDenverText] }

/-- Indiana landing page that is not active. -/
def pageInactive : StateLandingPage :=
  { id := 2, stateCode := "IN", companyId := some 1, active := "no" }

/-- Store whose Indiana landing page is inactive. -/
def storeInactive : Storage :=
  { companies := [compInserv]
    disposalSites := []
    stateLandingPages := [pageInactive]
    disposalSiteLandingPages := [] }

/-- Indiana landing page bound to a company id that no longer exists. -/
def pageDangling : StateLandingPage :=
  { id := 3, stateCode := "IN", companyId := some 99, active := "yes" }

/-- Store whose Indiana landing page is bound to a missing company. -/
def storeDangling : Storage :=
  { companies := [compInserv]
    disposalSites := []
    stateLandingPages := [pageDangling]
    disposalSiteLandingPages := [] }

/-- Response of the Indianapolis search over `storeTiers` at radius 50. -/
def respDefault : SearchResponse :=
  searchCore distZero storeTiers "Indianapolis, IN" 50 geoResIN

/-- Indiana disposal-site landing page that is not active. -/
def dsPageInactive : DisposalSiteLandingPage :=
  { id := 4, stateCode := "IN", disposalSiteId := some 5, active := "no" }

/-- Store whose Indiana disposal-site landing page is inactive. -/
def storeDsInactive : Storage :=
  { companies := []
    disposalSites := [siteNear]
    stateLandingPages := []
    disposalSiteLandingPages := [dsPageInactive] }

/-- Indiana disposal-site landing page bound to a site id that no longer
exists. -/
def dsPageDangling : DisposalSiteLandingPage :=
  { id := 5, stateCode := "IN", disposalSiteId := some 77, active := "yes" }

/-- Store whose Indiana disposal-site landing page is bound to a missing
disposal site. -/
def storeDsDangling : Storage :=
  { companies := []
    disposalSites := [siteNear]
    stateLandingPages := []
    disposalSiteLandingPages := [dsPageDangling] }

/-! ### Basic lemmas about the stable sort and the premium resolution -/

theorem mem_stableInsert {α : Type} (le : α → α → Bool) (a x : α) (l : List α) :
    x ∈ stableInsert le a l ↔ x = a ∨ x ∈ l := by
  induction l with
  | nil => simp [stableInsert]
  | cons b l ih =>
    simp only [stableInsert]
    split
    · simp
    · simp [ih]
      tauto

theorem mem_stableSort {α : Type} (le : α → α → Bool) (x : α) (l : List α) :
    x ∈ stableSort le l ↔ x ∈ l := by
  induction l with
  | nil => simp [stableSort]
  | cons b l ih => simp [stableSort, mem_stableInsert, ih]

theorem resolvePremiumCompany_fst_none (store : Storage) (sc : Option String)
    (h : (resolvePremiumCompany store sc).1 = none) :
    resolvePremiumCompany store sc = (none, none) := by
  cases sc with
  | none => rfl
  | some s =>
    simp only [resolvePremiumCompany] at h ⊢
    cases hl : getStateLandingPageByStateCode store s with
    | none => simp [hl]
    | some page => simp [hl] at h

theorem apiSearch_ok_elim (dist : Rat → Rat → Rat → Rat → Rat) (store : Storage)
    (key : Bool) (body : RequestBody) (geo : GeocodeOutcome) (resp : SearchResponse)
    (h : apiSearch dist store key body geo = Except.ok resp) :
    ∃ g rest, geo = GeocodeOutcome.response "OK" (g :: rest) ∧
      resp = searchCore dist store (body.address.getD "")
        (body.radiusMiles.getD 50) g := by
  unfold apiSearch at h
  split at h
  · exact absurd h (by simp)
  · split at h
    · exact absurd h (by simp)
    · split at h
      · exact absurd h (by simp)
      · rename_i status results
        split at h
        · exact absurd h (by simp)
        · rename_i g rest
          split at h
          · exact absurd h (by simp)
          · rename_i hstatus
            have hs : status = "OK" := by simpa using hstatus
            subst hs
            refine ⟨g, rest, rfl, ?_⟩
            simpa using h.symm

/-- Sorting in step 6a permutes `otherCompanies`, so membership is unchanged. -/
theorem mem_sortedCompaniesOf (dist : Rat → Rat → Rat → Rat → Rat) (store : Storage)
    (address : String) (radiusMiles : Rat) (g : GeoResult) (c : Company) :
    c ∈ sortedCompaniesOf dist store address radiusMiles g ↔
      c ∈ otherCompaniesOf dist store address radiusMiles g := by
  unfold sortedCompaniesOf
  split
  · split
    · exact mem_stableSort _ _ _
    · exact Iff.rfl
  · exact Iff.rfl

/-- Unfolding of the company additional-location test: it passes exactly
for an entry carrying truthy (present and non-zero) coordinates within the
radius. -/
theorem additionalLocationWithin_iff (dist : Rat → Rat → Rat → Rat → Rat)
    (lat lng radiusMiles : Rat) (loc : AdditionalLocation) :
    additionalLocationWithin dist lat lng radiusMiles loc = true ↔
      ∃ la lo, loc.lat = some la ∧ loc.lng = some lo ∧ la ≠ 0 ∧ lo ≠ 0 ∧
        dist lat lng la lo ≤ radiusMiles := by
  unfold additionalLocationWithin
  cases hla : loc.lat with
  | none => simp [truthyNum, hla]
  | some la =>
    cases hlo : loc.lng with
    | none => simp [truthyNum, hla, hlo]
    | some lo =>
      by_cases h1 : la = 0 <;> by_cases h2 : lo = 0 <;>
        simp [truthyNum, hla, hlo, h1, h2]

/-- Unfolding of the company matcher predicate. -/
theorem companyMatchesRadius_iff (dist : Rat → Rat → Rat → Rat → Rat)
    (lat lng radiusMiles : Rat) (c : Company) :
    companyMatchesRadius dist lat lng radiusMiles c = true ↔
      (∃ cla clo, c.lat = some cla ∧ c.lng = some clo ∧
        dist lat lng cla clo ≤ radiusMiles)
      ∨ (∃ locs, c.additionalLocations = AdditionalLocationsField.parsed locs ∧
          ∃ loc ∈ locs, additionalLocationWithin dist lat lng radiusMiles loc = true) := by
  unfold companyMatchesRadius
  rw [Bool.or_eq_true]
  apply or_congr
  · unfold companyPrimaryWithin
    cases hla : c.lat with
    | none => simp [hla]
    | some cla =>
      cases hlo : c.lng with
      | none => simp [hla, hlo]
      | some clo => simp [hla, hlo]
  · cases hadd : c.additionalLocations with
    | absent => simp [hadd]
    | unparseable => simp [hadd]
    | parsed locs =>
      simp only [hadd, AdditionalLocationsField.parsed.injEq, Bool.and_eq_true,
        decide_eq_true_eq, List.any_eq_true]
      constructor
      · rintro ⟨-, loc, hmem, hw⟩
        exact ⟨locs, rfl, loc, hmem, hw⟩
      · rintro ⟨locs2, hlocs, loc, hmem, hw⟩
        subst hlocs
        exact ⟨List.length_pos.2 (List.ne_nil_of_mem hmem), loc, hmem, hw⟩

/-- Unfolding of the disposal-site matcher predicate. -/
theorem siteMatchesRadius_iff (dist : Rat → Rat → Rat → Rat → Rat)
    (lat lng radiusMiles : Rat) (sa : Option String) (s : DisposalSite) :
    siteMatchesRadius dist lat lng radiusMiles sa s = true ↔
      (∃ sla slo, s.lat = some sla ∧ s.lng = some slo ∧
        dist lat lng sla slo ≤ radiusMiles)
      ∨ (truthyStr sa = true ∧
          ∃ locs, s.additionalLocations = AdditionalLocationsField.parsed locs ∧
            ∃ loc ∈ locs,
              additionalLocationTextMatch (jsToLower (sa.getD "")) loc = true) := by
  unfold siteMatchesRadius
  rw [Bool.or_eq_true, Bool.and_eq_true]
  apply or_congr
  · unfold sitePrimaryWithin
    cases hla : s.lat with
    | none => simp [hla]
    | some sla =>
      cases hlo : s.lng with
      | none => simp [hla, hlo]
      | some slo => simp [hla, hlo]
  · apply and_congr Iff.rfl
    cases hadd : s.additionalLocations with
    | absent => simp [hadd]
    | unparseable => simp [hadd]
    | parsed locs =>
      simp [hadd, List.any_eq_true]

/-- C1 (amended): when an active company landing page resolves to an
existing provider P, the handler removes P from the matched company
collection and returns it only in `premiumLandingPage.company`; the returned
`companies` sequence never contains P (it is not re-inserted at position 0). -/
theorem premium_company_removed_not_pinned
    (dist : Rat → Rat → Rat → Rat → Rat) (store : Storage) (key : Bool)
    (body : RequestBody) (geo : GeocodeOutcome) (resp : SearchResponse)
    (pg : StateLandingPage) (P : Company)
    (hok : apiSearch dist store key body geo = Except.ok resp)
    (hprem : resp.premiumLandingPage = some (pg, some P)) :
    ∀ c ∈ resp.companies, c.id ≠ P.id := by
  obtain ⟨g, rest, -, hresp⟩ := apiSearch_ok_elim dist store key body geo resp hok
  subst hresp
  have hpair : (premiumCompanyPair store g).2 = some P := by
    have h1 : (premiumCompanyPair store g).1.map
        (fun p => (p, (premiumCompanyPair store g).2)) = some (pg, some P) := hprem
    rcases Option.map_eq_some'.1 h1 with ⟨p, hp1, hp2⟩
    have h2 := congrArg Prod.snd hp2
    simpa using h2
  intro c hc
  have hco : c ∈ otherCompaniesOf dist store (body.address.getD "")
      (body.radiusMiles.getD 50) g :=
    (mem_sortedCompaniesOf dist store _ _ g c).1 hc
  unfold otherCompaniesOf at hco
  rw [hpair] at hco
  rcases List.mem_filter.1 hco with ⟨-, hid⟩
  simpa using hid

/-- C1 counterexample to the claim as stated: for the pinned-premium
fixture the premium company (id 1) is resolved, yet the returned
`companies` sequence is `[2]` — it contains the premium provider zero
times rather than at index 0 exactly once. -/
theorem premium_pin_counterexample :
    (apiSearch distZero storePinned true bodyIndy geoOutIN).toOption.map
        (fun r => (r.companies.map (fun c => c.id),
          r.premiumLandingPage.map (fun q => Option.map (fun c => c.id) q.2)))
      = some ([2], some (some 1))
    ∧ (respPinned.companies.map (fun c => c.id)).count 1 = 0 := by
  exact ⟨rfl, rfl⟩

/-- C1 witness: the hypotheses of `premium_company_removed_not_pinned` hold
at the pinned-premium fixture, and the surviving company differs from the
premium provider. -/
theorem premium_company_removed_witness :
    respPinned.premiumLandingPage = some (pageIN, some compInserv)
    ∧ compLocal ∈ respPinned.companies
    ∧ compLocal.id ≠ compInserv.id :=
  ⟨rfl, by decide,
    premium_company_removed_not_pinned distZero storePinned true bodyIndy geoOutIN
      respPinned pageIN compInserv rfl rfl compLocal (by decide)⟩

/-- C2 (amended): the tier sort of step 6a runs only when a landing page
with a truthy bound `companyId` was found for the resolved state; with no
landing page resolved the companies are returned exactly in radius-matcher
order, and with one the remainder is stable-sorted under the comparator
`companyCompare` (landing-page company first, then tier descending). -/
theorem tier_sort_conditional (dist : Rat → Rat → Rat → Rat → Rat)
    (store : Storage) (address : String) (radiusMiles : Rat) (g : GeoResult) :
    ((premiumCompanyPair store g).1 = none →
      (searchCore dist store address radiusMiles g).companies
        = companiesInRadiusOf dist store address radiusMiles g)
    ∧ (∀ page, (premiumCompanyPair store g).1 = some page →
        truthyId page.companyId = true →
        (searchCore dist store address radiusMiles g).companies
          = stableSort (companyLe (page.companyId.getD 0))
              (otherCompaniesOf dist store address radiusMiles g)) := by
  constructor
  · intro h1
    have h2 : premiumCompanyPair store g = (none, none) :=
      resolvePremiumCompany_fst_none store _ h1
    have h3 : (premiumCompanyPair store g).2 = none := by rw [h2]
    show sortedCompaniesOf dist store address radiusMiles g = _
    unfold sortedCompaniesOf otherCompaniesOf
    rw [h1, h3]
  · intro page hp htr
    show sortedCompaniesOf dist store address radiusMiles g = _
    unfold sortedCompaniesOf
    rw [hp]
    simp [htr]

/-- C2 counterexample to the claim as stated: three matched companies with
tiers basic, premium, verified in input order and no landing page resolved
come back in input order `[1, 2, 3]`, not tier-sorted `[2, 3, 1]`. -/
theorem tier_sort_counterexample :
    (apiSearch distZero storeTiers true bodyIndy geoOutIN).toOption.map
        (fun r => r.companies.map (fun c => c.id)) = some [1, 2, 3]
    ∧ (apiSearch distZero storeTiers true bodyIndy geoOutIN).toOption.map
        (fun r => r.companies.map (fun c => c.id)) ≠ some [2, 3, 1] := by
  exact ⟨rfl, by decide⟩

/-- C2 witness: the no-landing-page hypothesis of `tier_sort_conditional`
holds at the three-tier fixture, and the output is the raw matcher order. -/
theorem tier_sort_conditional_witness :
    (premiumCompanyPair storeTiers geoResIN).1 = none
    ∧ (searchCore distZero storeTiers "Indianapolis, IN" 50 geoResIN).companies
        = companiesInRadiusOf distZero storeTiers "Indianapolis, IN" 50 geoResIN :=
  ⟨rfl, (tier_sort_conditional distZero storeTiers "Indianapolis, IN" 50 geoResIN).1 rfl⟩

/-- C3 (amended): the handler validates only that the address is truthy —
a falsy (missing or empty) address fails fast with the 400-class
`addressRequired` error before any geocoding or matching; no radius
validation exists, and any `radiusMiles` (including 0 and negatives)
proceeds through geocoding, matching, and result assembly. -/
theorem address_only_validation (dist : Rat → Rat → Rat → Rat → Rat)
    (store : Storage) (key : Bool) (body : RequestBody) (geo : GeocodeOutcome)
    (g : GeoResult) (rest : List GeoResult) :
    (truthyStr body.address = false →
      apiSearch dist store key body geo = Except.error ApiError.addressRequired)
    ∧ (truthyStr body.address = true →
      apiSearch dist store true body (GeocodeOutcome.response "OK" (g :: rest))
        = Except.ok (searchCore dist store (body.address.getD "")
            (body.radiusMiles.getD 50) g)) := by
  constructor
  · intro h
    unfold apiSearch
    rw [h]
    rfl
  · intro h
    unfold apiSearch
    rw [h]
    rfl

/-- C3 counterexample to the claim as stated: a request with
`radiusMiles = -5` is not rejected as invalid input; the search runs to
completion and answers with radius -5 (and an empty match set). -/
theorem radius_validation_counterexample :
    (apiSearch distZero storeTiers true
        { address := some "Indianapolis, IN", radiusMiles := some (-5) } geoOutIN).toOption.map
      (fun r => (r.radius, r.companies.map (fun c => c.id)))
      = some (-5, []) := by
  rfl

/-- C3 witness: `address_only_validation` applied to an empty address (400
error) and to a truthy address with a negative radius (search succeeds). -/
theorem address_only_validation_witness :
    apiSearch distZero storeTiers true
        { address := some "", radiusMiles := some 10 } geoOutIN
      = Except.error ApiError.addressRequired
    ∧ apiSearch distZero storeTiers true
        { address := some "Indianapolis, IN", radiusMiles := some (-5) }
        (GeocodeOutcome.response "OK" [geoResIN])
      = Except.ok (searchCore distZero storeTiers "Indianapolis, IN" (-5) geoResIN) :=
  ⟨(address_only_validation distZero storeTiers true
      { address := some "", radiusMiles := some 10 } geoOutIN geoResIN []).1 rfl,
   (address_only_validation distZero storeTiers true
      { address := some "Indianapolis, IN", radiusMiles := some (-5) }
      (GeocodeOutcome.response "OK" [geoResIN]) geoResIN []).2 rfl⟩

/-- C4 (amended): membership in the company match set coincides with having
some resolvable location — the primary coordinates, or an additional entry
with truthy coordinates — within the radius; for disposal sites the primary
location is matched by distance, but additional locations are matched by
the case-insensitive occurrence of their city/address in the search text,
never by coordinates. -/
theorem radius_match_characterization (dist : Rat → Rat → Rat → Rat → Rat)
    (lat lng radiusMiles : Rat) (sa : Option String)
    (cs : List Company) (ss : List DisposalSite) (c : Company) (s : DisposalSite) :
    (c ∈ getCompaniesByRadius dist lat lng radiusMiles sa cs ↔
      c ∈ cs ∧
        ((∃ cla clo, c.lat = some cla ∧ c.lng = some clo ∧
            dist lat lng cla clo ≤ radiusMiles)
          ∨ (∃ locs, c.additionalLocations = AdditionalLocationsField.parsed locs ∧
              ∃ loc ∈ locs, ∃ la lo, loc.lat = some la ∧ loc.lng = some lo ∧
                la ≠ 0 ∧ lo ≠ 0 ∧ dist lat lng la lo ≤ radiusMiles)))
    ∧ (s ∈ getDisposalSitesByRadius dist lat lng radiusMiles sa ss ↔
      s ∈ ss ∧
        ((∃ sla slo, s.lat = some sla ∧ s.lng = some slo ∧
            dist lat lng sla slo ≤ radiusMiles)
          ∨ (truthyStr sa = true ∧
              ∃ locs, s.additionalLocations = AdditionalLocationsField.parsed locs ∧
                ∃ loc ∈ locs,
                  additionalLocationTextMatch (jsToLower (sa.getD "")) loc = true))) := by
  constructor
  · simp only [getCompaniesByRadius, List.mem_filter]
    apply and_congr Iff.rfl
    rw [companyMatchesRadius_iff]
    apply or_congr Iff.rfl
    apply exists_congr
    intro locs
    apply and_congr Iff.rfl
    apply exists_congr
    intro loc
    apply and_congr Iff.rfl
    exact additionalLocationWithin_iff dist lat lng radiusMiles loc
  · simp only [getDisposalSitesByRadius, List.mem_filter]
    exact and_congr Iff.rfl (siteMatchesRadius_iff dist lat lng radiusMiles sa s)

/-- C4 counterexample to the claim as stated: under a distance function
that puts coincident points 0 miles and distinct points 1000 miles apart,
a company with a far primary location and an additional location at the
center matches the 1-mile search, but the disposal site of the same shape
does not — its additional location's coordinates are never consulted. -/
theorem multi_location_counterexample :
    getCompaniesByRadius distApart 25 (-71) 1 (some "123 Main St") [compSat] = [compSat]
    ∧ getDisposalSitesByRadius distApart 25 (-71) 1 (some "123 Main St") [siteSat] = []
    ∧ distApart 25 (-71) 25 (-71) = 0
    ∧ distApart 25 (-71) 40 (-80) = 1000 := by
  exact ⟨rfl, rfl, rfl, rfl⟩

/-- C5 (confirmed): for fixed center, provider collections and search
address, growing the radius keeps every match — both match sets are
monotone in the radius. -/
theorem radius_monotone (dist : Rat → Rat → Rat → Rat → Rat)
    (lat lng r1 r2 : Rat) (sa : Option String)
    (cs : List Company) (ss : List DisposalSite) (h : r1 < r2) :
    (∀ c, c ∈ getCompaniesByRadius dist lat lng r1 sa cs →
      c ∈ getCompaniesByRadius dist lat lng r2 sa cs)
    ∧ (∀ s, s ∈ getDisposalSitesByRadius dist lat lng r1 sa ss →
      s ∈ getDisposalSitesByRadius dist lat lng r2 sa ss) := by
  have hle : r1 ≤ r2 := le_of_lt h
  constructor
  · intro c hc
    simp only [getCompaniesByRadius, List.mem_filter] at hc ⊢
    refine ⟨hc.1, ?_⟩
    have hm := (companyMatchesRadius_iff dist lat lng r1 c).1 hc.2
    apply (companyMatchesRadius_iff dist lat lng r2 c).2
    rcases hm with ⟨cla, clo, e1, e2, hd⟩ | ⟨locs, hl, loc, hmem, hw⟩
    · exact Or.inl ⟨cla, clo, e1, e2, le_trans hd hle⟩
    · refine Or.inr ⟨locs, hl, loc, hmem, ?_⟩
      rcases (additionalLocationWithin_iff dist lat lng r1 loc).1 hw with
        ⟨la, lo, f1, f2, n1, n2, hd⟩
      exact (additionalLocationWithin_iff dist lat lng r2 loc).2
        ⟨la, lo, f1, f2, n1, n2, le_trans hd hle⟩
  · intro s hs
    simp only [getDisposalSitesByRadius, List.mem_filter] at hs ⊢
    refine ⟨hs.1, ?_⟩
    have hm := (siteMatchesRadius_iff dist lat lng r1 sa s).1 hs.2
    apply (siteMatchesRadius_iff dist lat lng r2 sa s).2
    rcases hm with ⟨sla, slo, e1, e2, hd⟩ | htext
    · exact Or.inl ⟨sla, slo, e1, e2, le_trans hd hle⟩
    · exact Or.inr htext

/-- C5 witness: a company and a disposal site matched at radius 1 are still
matched at radius 2. -/
theorem radius_monotone_witness :
    compA ∈ getCompaniesByRadius distZero 39 (-86) 2 (some "Indianapolis, IN") [compA]
    ∧ siteNear ∈ getDisposalSitesByRadius distZero 39 (-86) 2 (some "Indianapolis, IN")
        [siteNear] :=
  ⟨(radius_monotone distZero 39 (-86) 1 2 (some "Indianapolis, IN") [compA] [siteNear]
      (by decide)).1 compA (by decide),
   (radius_monotone distZero 39 (-86) 1 2 (some "Indianapolis, IN") [compA] [siteNear]
      (by decide)).2 siteNear (by decide)⟩

/-- C6 (amended): a company none of whose location entries carries
coordinates never matches any radius; a disposal site with no coordinates
and no additional-location text match never matches either (though the
text path can still match such a site when the search text contains its
city or address); a coordinate-less additional entry is skipped without
affecting the provider's other entries; and a fully malformed provider is
simply dropped from the scan without disturbing the other providers. -/
theorem malformed_locations_skipped (dist : Rat → Rat → Rat → Rat → Rat)
    (lat lng radiusMiles : Rat) (sa : Option String)
    (cs : List Company) (ss : List DisposalSite) (c : Company) (s : DisposalSite)
    (h1 : c.lat = none ∨ c.lng = none)
    (h2 : ∀ locs, c.additionalLocations = AdditionalLocationsField.parsed locs →
      ∀ loc ∈ locs, loc.lat = none ∨ loc.lng = none)
    (h3 : s.lat = none ∨ s.lng = none)
    (h4 : ∀ locs, s.additionalLocations = AdditionalLocationsField.parsed locs →
      ∀ loc ∈ locs, additionalLocationTextMatch (jsToLower (sa.getD "")) loc = false) :
    c ∉ getCompaniesByRadius dist lat lng radiusMiles sa cs
    ∧ s ∉ getDisposalSitesByRadius dist lat lng radiusMiles sa ss
    ∧ getCompaniesByRadius dist lat lng radiusMiles sa (c :: cs)
        = getCompaniesByRadius dist lat lng radiusMiles sa cs
    ∧ (∀ loc locs, loc.lat = none ∨ loc.lng = none →
        companyMatchesRadius dist lat lng radiusMiles
            { c with additionalLocations := AdditionalLocationsField.parsed (loc :: locs) }
          = companyMatchesRadius dist lat lng radiusMiles
              { c with additionalLocations := AdditionalLocationsField.parsed locs }) := by
  have hcm : companyMatchesRadius dist lat lng radiusMiles c = false := by
    rw [Bool.eq_false_iff]
    intro hm
    rcases (companyMatchesRadius_iff dist lat lng radiusMiles c).1 hm with
      ⟨cla, clo, e1, e2, -⟩ | ⟨locs, hl, loc, hmem, hw⟩
    · rcases h1 with h1 | h1
      · rw [h1] at e1
        exact Option.noConfusion e1
      · rw [h1] at e2
        exact Option.noConfusion e2
    · rcases (additionalLocationWithin_iff dist lat lng radiusMiles loc).1 hw with
        ⟨la, lo, f1, f2, -, -, -⟩
      rcases h2 locs hl loc hmem with hb | hb
      · rw [hb] at f1
        exact Option.noConfusion f1
      · rw [hb] at f2
        exact Option.noConfusion f2
  have hsm : siteMatchesRadius dist lat lng radiusMiles sa s = false := by
    rw [Bool.eq_false_iff]
    intro hm
    rcases (siteMatchesRadius_iff dist lat lng radiusMiles sa s).1 hm with
      ⟨sla, slo, e1, e2, -⟩ | ⟨-, locs, hl, loc, hmem, htm⟩
    · rcases h3 with h3 | h3
      · rw [h3] at e1
        exact Option.noConfusion e1
      · rw [h3] at e2
        exact Option.noConfusion e2
    · rw [h4 locs hl loc hmem] at htm
      exact Bool.noConfusion htm
  refine ⟨?_, ?_, ?_, ?_⟩
  · intro hmem
    rcases List.mem_filter.1 hmem with ⟨-, hp⟩
    rw [hcm] at hp
    exact Bool.noConfusion hp
  · intro hmem
    rcases List.mem_filter.1 hmem with ⟨-, hp⟩
    rw [hsm] at hp
    exact Bool.noConfusion hp
  · simp only [getCompaniesByRadius, List.filter_cons, hcm]
    rw [if_neg (by simp)]
  · intro loc locs hbad
    have hskip : additionalLocationWithin dist lat lng radiusMiles loc = false := by
      rw [Bool.eq_false_iff]
      intro hw
      rcases (additionalLocationWithin_iff dist lat lng radiusMiles loc).1 hw with
        ⟨la, lo, f1, f2, -, -, -⟩
      rcases hbad with hb | hb
      · rw [hb] at f1
        exact Option.noConfusion f1
      · rw [hb] at f2
        exact Option.noConfusion f2
    have hprim : ∀ X, companyPrimaryWithin dist lat lng radiusMiles
        { c with additionalLocations := X }
          = companyPrimaryWithin dist lat lng radiusMiles c := fun X => rfl
    unfold companyMatchesRadius
    cases locs with
    | nil => simp [hskip, hprim]
    | cons l2 ls => simp [hskip, hprim]

/-- C6 counterexample to the claim as stated: a disposal site all of whose
location entries lack coordinates still lands in the disposal match set,
because its additional location's city "Denver" occurs in the search text. -/
theorem malformed_counterexample :
    siteTextOnly.lat = none ∧ siteTextOnly.lng = none
    ∧ locDenverText.lat = none ∧ locDenverText.lng = none
    ∧ siteTextOnly.additionalLocations
        = AdditionalLocationsField.parsed [locDenverText]
    ∧ getDisposalSitesByRadius distZero 39 (-105) 10 (some "Denver, CO") [siteTextOnly]
        = [siteTextOnly] := by
  exact ⟨rfl, rfl, rfl, rfl, rfl, rfl⟩

/-- C6 witness: `malformed_locations_skipped` instantiated at a company and
a disposal site with no coordinates anywhere (and no text match). -/
theorem malformed_locations_skipped_witness :
    compNoCoords ∉ getCompaniesByRadius distZero 39 (-86) 50 (some "Indianapolis, IN") [compA]
    ∧ siteNoText ∉ getDisposalSitesByRadius distZero 39 (-86) 50
        (some "Indianapolis, IN") [siteNoText]
    ∧ getCompaniesByRadius distZero 39 (-86) 50 (some "Indianapolis, IN")
        [compNoCoords, compA]
      = getCompaniesByRadius distZero 39 (-86) 50 (some "Indianapolis, IN") [compA]
    ∧ companyMatchesRadius distZero 39 (-86) 50
        { compNoCoords with
            additionalLocations := AdditionalLocationsField.parsed [locDenverText] }
      = companyMatchesRadius distZero 39 (-86) 50
          { compNoCoords with
              additionalLocations := AdditionalLocationsField.parsed [] } := by
  have T := malformed_locations_skipped distZero 39 (-86) 50 (some "Indianapolis, IN")
    [compA] [siteNoText] compNoCoords siteNoText (by decide)
    (by
      intro locs hl loc hmem
      have h := hl
      rw [show compNoCoords.additionalLocations
          = AdditionalLocationsField.parsed [locDenverText] from rfl] at h
      cases h
      simp only [List.mem_singleton] at hmem
      subst hmem
      decide)
    (by decide)
    (by
      intro locs hl loc hmem
      have h := hl
      rw [show siteNoText.additionalLocations
          = AdditionalLocationsField.parsed
              [{ city := some "Phoenix", address := none, lat := none, lng := none }]
          from rfl] at h
      cases h
      simp only [List.mem_singleton] at hmem
      subst hmem
      decide)
  exact ⟨T.1, T.2.1, T.2.2.1, T.2.2.2 locDenverText [] (by decide)⟩

/-- C7 (confirmed): whenever result assembly runs, `hasRadiusResults` is
true exactly when the companies collection after premium removal is
non-empty or the disposal-site collection is non-empty, and false exactly
when both are empty. -/
theorem has_radius_results_iff (dist : Rat → Rat → Rat → Rat → Rat)
    (store : Storage) (address : String) (radiusMiles : Rat) (g : GeoResult) :
    ((searchCore dist store address radiusMiles g).hasRadiusResults = true ↔
      ((searchCore dist store address radiusMiles g).companies ≠ []
        ∨ (searchCore dist store address radiusMiles g).disposalSites ≠ []))
    ∧ ((searchCore dist store address radiusMiles g).hasRadiusResults = false ↔
      ((searchCore dist store address radiusMiles g).companies = []
        ∧ (searchCore dist store address radiusMiles g).disposalSites = [])) := by
  constructor
  · show (decide (0 < (sortedCompaniesOf dist store address radiusMiles g).length) ||
        decide (0 < (disposalSitesInRadiusOf dist store address radiusMiles g).length))
          = true ↔ _
    rw [Bool.or_eq_true, decide_eq_true_iff, decide_eq_true_iff,
      List.length_pos, List.length_pos]
    exact Iff.rfl
  · show (decide (0 < (sortedCompaniesOf dist store address radiusMiles g).length) ||
        decide (0 < (disposalSitesInRadiusOf dist store address radiusMiles g).length))
          = false ↔ _
    rw [Bool.or_eq_false_iff, decide_eq_false_iff_not, decide_eq_false_iff_not,
      Nat.not_lt, Nat.not_lt, Nat.le_zero, Nat.le_zero,
      List.length_eq_zero, List.length_eq_zero]
    exact Iff.rfl

/-- C8 (confirmed): for each provider category the resolved premium
provider is null when the state code is null, when no landing page exists
for the state, when the page is not active, and when the bound provider id
does not resolve; and once geocoding has succeeded the search always
completes without error. -/
theorem premium_resolution_null_cases (dist : Rat → Rat → Rat → Rat → Rat)
    (store : Storage) (sc : String) (page : StateLandingPage)
    (dpage : DisposalSiteLandingPage)
    (body : RequestBody) (g : GeoResult) (gs : List GeoResult) :
    resolvePremiumCompany store none = (none, none)
    ∧ (getStateLandingPageByStateCode store sc = none →
        resolvePremiumCompany store (some sc) = (none, none))
    ∧ (getStateLandingPageByStateCode store sc = some page → page.active ≠ "yes" →
        (resolvePremiumCompany store (some sc)).2 = none)
    ∧ (getStateLandingPageByStateCode store sc = some page →
        getCompany store (page.companyId.getD 0) = none →
        (resolvePremiumCompany store (some sc)).2 = none)
    ∧ resolvePremiumDisposalSite store none = (none, none)
    ∧ (getDisposalSiteLandingPageByStateCode store sc = none →
        resolvePremiumDisposalSite store (some sc) = (none, none))
    ∧ (getDisposalSiteLandingPageByStateCode store sc = some dpage →
        dpage.active ≠ "yes" →
        (resolvePremiumDisposalSite store (some sc)).2 = none)
    ∧ (getDisposalSiteLandingPageByStateCode store sc = some dpage →
        getDisposalSite store (dpage.disposalSiteId.getD 0) = none →
        (resolvePremiumDisposalSite store (some sc)).2 = none)
    ∧ (truthyStr body.address = true →
        apiSearch dist store true body (GeocodeOutcome.response "OK" (g :: gs))
          = Except.ok (searchCore dist store (body.address.getD "")
              (body.radiusMiles.getD 50) g)) := by
  refine ⟨rfl, ?_, ?_, ?_, rfl, ?_, ?_, ?_, ?_⟩
  · intro h
    simp only [resolvePremiumCompany, h]
  · intro h hact
    simp only [resolvePremiumCompany, h]
    have hfalse : (page.active == "yes") = false := beq_eq_false_iff_ne.2 hact
    simp [hfalse]
  · intro h hco
    simp only [resolvePremiumCompany, h]
    split
    · exact hco
    · rfl
  · intro h
    simp only [resolvePremiumDisposalSite, h]
  · intro h hact
    simp only [resolvePremiumDisposalSite, h]
    have hfalse : (dpage.active == "yes") = false := beq_eq_false_iff_ne.2 hact
    simp [hfalse]
  · intro h hds
    simp only [resolvePremiumDisposalSite, h]
    split
    · exact hds
    · rfl
  · intro h
    unfold apiSearch
    rw [h]
    rfl

/-- C8 witness: the four null cases of each category and the
still-succeeding search, at concrete stores (no page, inactive page,
dangling provider binding, for companies and for disposal sites). -/
theorem premium_resolution_null_cases_witness :
    resolvePremiumCompany storeTiers none = (none, none)
    ∧ resolvePremiumCompany storeTiers (some "ZZ") = (none, none)
    ∧ (resolvePremiumCompany storeInactive (some "IN")).2 = none
    ∧ (resolvePremiumCompany storeDangling (some "IN")).2 = none
    ∧ resolvePremiumDisposalSite storeTiers none = (none, none)
    ∧ resolvePremiumDisposalSite storeTiers (some "ZZ") = (none, none)
    ∧ (resolvePremiumDisposalSite storeDsInactive (some "IN")).2 = none
    ∧ (resolvePremiumDisposalSite storeDsDangling (some "IN")).2 = none
    ∧ apiSearch distZero storeDangling true bodyIndy
        (GeocodeOutcome.response "OK" [geoResIN])
      = Except.ok (searchCore distZero storeDangling "Indianapolis, IN" 50 geoResIN) :=
  ⟨(premium_resolution_null_cases distZero storeTiers "ZZ" pageIN dsPageInactive
      bodyIndy geoResIN []).1,
   (premium_resolution_null_cases distZero storeTiers "ZZ" pageIN dsPageInactive
      bodyIndy geoResIN []).2.1 (by decide),
   (premium_resolution_null_cases distZero storeInactive "IN" pageInactive
      dsPageInactive bodyIndy geoResIN []).2.2.1 (by decide) (by decide),
   (premium_resolution_null_cases distZero storeDangling "IN" pageDangling
      dsPageInactive bodyIndy geoResIN []).2.2.2.1 (by decide) (by decide),
   (premium_resolution_null_cases distZero storeTiers "ZZ" pageIN dsPageInactive
      bodyIndy geoResIN []).2.2.2.2.1,
   (premium_resolution_null_cases distZero storeTiers "ZZ" pageIN dsPageInactive
      bodyIndy geoResIN []).2.2.2.2.2.1 (by decide),
   (premium_resolution_null_cases distZero storeDsInactive "IN" pageIN dsPageInactive
      bodyIndy geoResIN []).2.2.2.2.2.2.1 (by decide) (by decide),
   (premium_resolution_null_cases distZero storeDsDangling "IN" pageIN dsPageDangling
      bodyIndy geoResIN []).2.2.2.2.2.2.2.1 (by decide) (by decide),
   (premium_resolution_null_cases distZero storeDangling "IN" pageDangling
      dsPageInactive bodyIndy geoResIN []).2.2.2.2.2.2.2.2 (by decide)⟩

/-- C9 (confirmed): omitting `radiusMiles` from the request body behaves
exactly like sending 50, and every successful response to such a request
reports `radius = 50`. -/
theorem default_radius_fifty (dist : Rat → Rat → Rat → Rat → Rat)
    (store : Storage) (key : Bool) (a : Option String) (geo : GeocodeOutcome) :
    apiSearch dist store key { address := a, radiusMiles := none } geo
      = apiSearch dist store key { address := a, radiusMiles := some 50 } geo
    ∧ (∀ resp, apiSearch dist store key { address := a, radiusMiles := none } geo
        = Except.ok resp → resp.radius = 50) := by
  constructor
  · rfl
  · intro resp h
    obtain ⟨g, rest, -, hresp⟩ := apiSearch_ok_elim dist store key
      { address := a, radiusMiles := none } geo resp h
    subst hresp
    rfl

/-- C9 witness: the Indianapolis search without a radius equals the same
search with radius 50, and its response carries radius 50. -/
theorem default_radius_fifty_witness :
    apiSearch distZero storeTiers true
        { address := some "Indianapolis, IN", radiusMiles := none } geoOutIN
      = apiSearch distZero storeTiers true
          { address := some "Indianapolis, IN", radiusMiles := some 50 } geoOutIN
    ∧ respDefault.radius = 50 :=
  ⟨(default_radius_fifty distZero storeTiers true (some "Indianapolis, IN") geoOutIN).1,
   (default_radius_fifty distZero storeTiers true (some "Indianapolis, IN") geoOutIN).2
     respDefault rfl⟩

/-- C10 (confirmed): a disposal site's additional locations are matched
purely by text — whenever the lower-cased search text contains an entry's
city or address the site matches at every center, radius and distance
function; and with no search text the matcher degenerates to the primary
coordinate test, ignoring additional-location coordinates entirely. -/
theorem disposal_text_match_rule (dist : Rat → Rat → Rat → Rat → Rat)
    (lat lng radiusMiles : Rat) (sa : String) (s : DisposalSite)
    (locs : List AdditionalLocation) (loc : AdditionalLocation) :
    (truthyStr (some sa) = true →
      s.additionalLocations = AdditionalLocationsField.parsed locs →
      loc ∈ locs →
      additionalLocationTextMatch (jsToLower sa) loc = true →
      siteMatchesRadius dist lat lng radiusMiles (some sa) s = true)
    ∧ siteMatchesRadius dist lat lng radiusMiles none s
        = sitePrimaryWithin dist lat lng radiusMiles s := by
  constructor
  · intro hsa hparsed hmem htext
    apply (siteMatchesRadius_iff dist lat lng radiusMiles (some sa) s).2
    exact Or.inr ⟨hsa, locs, hparsed, loc, hmem, htext⟩
  · unfold siteMatchesRadius
    simp [truthyStr]

/-- C10 witness: a disposal site 1000 miles away matches the "Denver, CO"
search through its additional-location city text, while a site whose
additional location sits exactly at the center is not matched when no
search text is supplied. -/
theorem disposal_text_match_rule_witness :
    siteMatchesRadius distApart 39 (-105) 1 (some "Denver, CO") siteFarText = true
    ∧ siteMatchesRadius distApart 25 (-71) 1 none siteSat
        = sitePrimaryWithin distApart 25 (-71) 1 siteSat
    ∧ siteMatchesRadius distApart 25 (-71) 1 none siteSat = false :=
  ⟨(disposal_text_match_rule distApart 39 (-105) 1 "Denver, CO" siteFarText
      [locDenverText] locDenverText).1 rfl rfl (by decide) (by decide),
   (disposal_text_match_rule distApart 25 (-71) 1 "NA" siteSat [] satLoc).2,
   rfl⟩

end HydroVac
